import Mathlib

/-!
Shallow embedding of `src/framework.py`, a pandas/streamlit script that
loads a CSV of research-paper metadata, cleans it, derives columns, and
aggregates for charts.  A DataFrame is embedded as a `List` of row records;
the pandas and Python operations the script uses are modelled explicitly.
-/

namespace Framework

/-- A raw row of the input CSV (`metadata.csv`): each cell may be null (NaN).
Only the four columns that `framework.py` touches are modelled. -/
structure RawRow where
  title : Option String
  abstract : Option String
  journal : Option String
  publish_time : Option String
deriving DecidableEq

/-- A row of the cleaned, derived table: after `load_data` (lines 9-16) /
the console pipeline (lines 123-139), with the derived columns
`publication_year` and `abstract_word_count` added.  `publish_time` itself
is no longer consulted downstream, so it is dropped here. -/
structure Row where
  title : Option String
  abstract : Option String
  journal : Option String
  publication_year : Option Int
  abstract_word_count : Nat
deriving DecidableEq

/-- Models the Python coercion `str(x)` on a possibly-null cell: `str` of a
string is itself; `str` of a missing value prints as text. -/
def pyStr : Option String → String
  | none => "nan"
  | some s => s

/-- Whitespace characters recognised by Python `str.split()` with no
argument (space, tab, newline, carriage return, vertical tab, form feed). -/
def pyIsSpace (c : Char) : Bool :=
  c = ' ' || c = '\t' || c = '\n' || c = '\r' || c = '\x0b' || c = '\x0c'

/-- Accumulator-based splitter for Python `str.split()`: maximal runs of
non-whitespace characters, empty pieces dropped. -/
def pySplitAux : List Char → List Char → List (List Char)
  | [], acc => if acc.isEmpty then [] else [acc.reverse]
  | c :: cs, acc =>
    if pyIsSpace c then
      if acc.isEmpty then pySplitAux cs [] else acc.reverse :: pySplitAux cs []
    else
      pySplitAux cs (c :: acc)

/-- Models Python `s.split()` (no separator argument): the list of
whitespace-delimited tokens of `s`, with repeated separators collapsed. -/
def pySplit (s : String) : List String :=
  (pySplitAux s.toList []).map (fun cs => String.mk cs)

/-- Models `len(str(x).split())`, the word count used at lines 15 and 139. -/
def pyWordCount (s : String) : Nat :=
  (pySplit s).length

/-- Digit-string to number, accumulator form; `none` on a non-digit. -/
def digitsToNatAux : List Char → Nat → Option Nat
  | [], acc => some acc
  | c :: cs, acc =>
    if c.isDigit then digitsToNatAux cs (acc * 10 + (c.toNat - 48)) else none

/-- Digit-string to number; the empty string is not a number. -/
def digitsToNat : List Char → Option Nat
  | [] => none
  | c :: cs => digitsToNatAux (c :: cs) 0

/-- Split a character list on the dash character. -/
def splitOnDash : List Char → List Char → List (List Char)
  | [], acc => [acc.reverse]
  | c :: cs, acc =>
    if c = '-' then acc.reverse :: splitOnDash cs [] else splitOnDash cs (c :: acc)

/-- Models `pd.to_datetime(x, errors=coerce).dt.year` for an ISO-format
date text `YYYY-MM-DD` (the format of the dataset): the year component when
the text parses as a date, `none` (NaT) when it does not. -/
def parseYear (s : String) : Option Int :=
  match splitOnDash s.toList [] with
  | [y, m, d] =>
    match digitsToNat y, digitsToNat m, digitsToNat d with
    | some yn, some mn, some dn =>
      if y.length = 4 && 1 ≤ mn && mn ≤ 12 && 1 ≤ dn && dn ≤ 31 then
        some (Int.ofNat yn)
      else
        none
    | _, _, _ => none
  | _ => none

/-- Row predicate of `df.dropna(subset=[title, abstract])` (lines 11 / 123):
keep a row exactly when both `title` and `abstract` are present. -/
def keepRow (r : RawRow) : Bool :=
  r.title.isSome && r.abstract.isSome

/-- Models `df.dropna(subset=[title, abstract])` (lines 11 / 123). -/
def dropnaTitleAbstract (rows : List RawRow) : List RawRow :=
  rows.filter keepRow

/-- Per-row effect of `df[journal].fillna(...)` (lines 12 / 126): substitute
the placeholder when `journal` is absent. -/
def fillJournal (r : RawRow) : RawRow :=
  { r with journal := some (r.journal.getD "Unknown Journal") }

/-- Models `df[journal].fillna(placeholder)` over the table (lines 12 / 126). -/
def fillnaJournal (rows : List RawRow) : List RawRow :=
  rows.map fillJournal

/-- The cleaning step: drop rows missing title or abstract, then fill
missing journals (lines 11-12 / 123-126). -/
def clean (rows : List RawRow) : List RawRow :=
  fillnaJournal (dropnaTitleAbstract rows)

/-- The derivation step on one row (lines 13-15 / 133-139): parse
`publish_time` (unparseable becomes null), extract the year, and count the
whitespace-delimited words of the string-coerced abstract. -/
def derive (r : RawRow) : Row :=
  { title := r.title
    abstract := r.abstract
    journal := r.journal
    publication_year := r.publish_time.bind parseYear
    abstract_word_count := pyWordCount (pyStr r.abstract) }

/-- Models `load_data` (lines 9-16) and the identical console preparation
pipeline (lines 123-139), as a function of the parsed file contents:
clean, then derive columns. -/
def load_data (rows : List RawRow) : List Row :=
  (clean rows).map derive

/-- Row predicate of line 50: pandas comparisons against NaN are false, so a
null `publication_year` fails both `>= lo` and `<= hi`. -/
def yearPred (lo hi : Int) (r : Row) : Bool :=
  match r.publication_year with
  | some y => decide (lo ≤ y) && decide (y ≤ hi)
  | none => false

/-- Models line 50:
`df[(df[publication_year] >= lo) & (df[publication_year] <= hi)]`. -/
def filtered_df (rows : List Row) (lo hi : Int) : List Row :=
  rows.filter (yearPred lo hi)

/-- Distinct values of a list in first-occurrence order, as a pandas
groupby / `value_counts` enumerates its groups. -/
def uniqueAux [DecidableEq α] : List α → List α → List α
  | [], _ => []
  | x :: xs, seen => if x ∈ seen then uniqueAux xs seen else x :: uniqueAux xs (x :: seen)

/-- Distinct values in first-occurrence order. -/
def uniqueInOrder [DecidableEq α] (l : List α) : List α :=
  uniqueAux l []

/-- The grouped counts of a column, one `(value, count)` entry per distinct
value, in first-occurrence (grouping) order. -/
def groupedCounts (xs : List String) : List (String × Nat) :=
  (uniqueInOrder xs).map (fun v => (v, xs.count v))

/-- Comparison used to sort `(journal, count)` entries descending by count. -/
def countGE (a b : String × Nat) : Prop :=
  b.2 ≤ a.2

instance : DecidableRel countGE :=
  fun a b => (inferInstance : Decidable (b.2 ≤ a.2))

instance : IsTotal (String × Nat) countGE :=
  ⟨fun a b => Nat.le_total b.2 a.2⟩

instance : IsTrans (String × Nat) countGE :=
  ⟨fun _ _ _ h h₂ => Nat.le_trans h₂ h⟩

/-- Models `Series.value_counts()` on a string column (nulls already
dropped by the caller): counts of the distinct values, grouped in
first-occurrence order and sorted descending by count; the sort is stable,
so ties keep the grouping order. -/
def value_counts_desc (xs : List String) : List (String × Nat) :=
  List.insertionSort countGE (groupedCounts xs)

/-- The `journal` column of a table, nulls dropped (as `value_counts` does). -/
def journalCol (rows : List Row) : List String :=
  rows.filterMap (fun r => r.journal)

/-- Models `filtered_df[journal].value_counts().head(10)` (lines 68 / 151). -/
def top_journals (rows : List Row) : List (String × Nat) :=
  (value_counts_desc (journalCol rows)).take 10

/-- Comparison used to sort `(year, count)` entries ascending by year. -/
def yearLE (a b : Int × Nat) : Prop :=
  a.1 ≤ b.1

instance : DecidableRel yearLE :=
  fun a b => (inferInstance : Decidable (a.1 ≤ b.1))

instance : IsTotal (Int × Nat) yearLE :=
  ⟨fun a b => Int.le_total a.1 b.1⟩

instance : IsTrans (Int × Nat) yearLE :=
  ⟨fun _ _ _ h h₂ => Int.le_trans h h₂⟩

/-- The `publication_year` column of a table, nulls dropped (as
`value_counts` does by default). -/
def yearCol (rows : List Row) : List Int :=
  rows.filterMap (fun r => r.publication_year)

/-- Models `df[publication_year].value_counts().sort_index()` (lines 54 /
146): counts of rows per non-null year, sorted ascending by year. -/
def papers_by_year (rows : List Row) : List (Int × Nat) :=
  List.insertionSort yearLE
    ((uniqueInOrder (yearCol rows)).map (fun y => (y, (yearCol rows).count y)))

/-- The `title` column coerced to strings,
`filtered_df[title].astype(str)` (lines 82 / 178). -/
def titleCol (rows : List Row) : List String :=
  rows.map (fun r => pyStr r.title)

/-- Models `' '.join(title for title in ...)` (lines 82 / 178). -/
def all_titles (rows : List Row) : String :=
  String.intercalate " " (titleCol rows)

/-- Outcome of the word-cloud section of either variant. -/
inductive WCResult where
  | chart (words : List String)
  | placeholderMessage
  | raised (msg : String)
deriving DecidableEq

/-- The message of the ValueError that `WordCloud.generate` raises on a
corpus with no words. -/
def emptyCorpusError : String :=
  "ValueError: We need at least 1 word to plot a word cloud, got 0"

/-- Models `WordCloud(...).generate(text)`: raises a ValueError when the
text contains no words, otherwise produces a chart from the words. -/
def wordcloud_generate (text : String) : WCResult :=
  if (pySplit text).isEmpty then WCResult.raised emptyCorpusError
  else WCResult.chart (pySplit text)

/-- Models the interactive word-cloud section (lines 82-90): the truthiness
check `if all_titles:` guards chart generation; the falsy (empty-string)
branch writes a placeholder message instead. -/
def interactive_wordcloud (rows : List Row) : WCResult :=
  if all_titles rows = "" then WCResult.placeholderMessage
  else wordcloud_generate (all_titles rows)

/-- Models the console word-cloud section (lines 178-188): `generate` is
called unconditionally on the joined titles; there is no empty-corpus
check. -/
def console_wordcloud (rows : List Row) : WCResult :=
  wordcloud_generate (all_titles rows)

/-- Outcome of the console-variant load (lines 98-103): either the parsed
rows, or the printed message and process exit status of the
`except FileNotFoundError` branch. -/
inductive ConsoleLoad where
  | loaded (rows : List RawRow)
  | exited (msg : String) (code : Nat)
deriving DecidableEq

/-- The message printed by line 102. -/
def consoleMissingFileMsg : String :=
  "Error: The file metadata.csv was not found. Please ensure it is in the same directory."

/-- Models lines 98-103: `pd.read_csv` raises FileNotFoundError when the
path does not exist; the handler prints a message and calls `exit()`.
Python `exit()` with no argument raises `SystemExit(None)`, which
terminates the process with exit status 0. -/
def console_load (fileExists : Bool) (contents : List RawRow) : ConsoleLoad :=
  if fileExists then ConsoleLoad.loaded contents
  else ConsoleLoad.exited consoleMissingFileMsg 0

/-- The process exit status of a console-load outcome, when it exited. -/
def exitCode : ConsoleLoad → Option Nat
  | ConsoleLoad.loaded _ => none
  | ConsoleLoad.exited _ c => some c

/-- Result of running a piece of Python code that may raise. -/
inductive PyResult (α : Type) where
  | ok (a : α)
  | exn (msg : String)
deriving DecidableEq

/-- The exception raised by `pd.read_csv` on a missing path. -/
def fileNotFoundMsg : String :=
  "FileNotFoundError: No such file or directory: metadata.csv"

/-- Models the interactive-variant load (lines 9-16, called at line 19):
`pd.read_csv` has no surrounding handler in `load_data` or at the call
site, so a missing file propagates FileNotFoundError out of the script. -/
def interactive_load (fileExists : Bool) (contents : List RawRow) : PyResult (List Row) :=
  if fileExists then PyResult.ok (load_data contents)
  else PyResult.exn fileNotFoundMsg

/-- Models `Series.min()` with the default NaN-skipping on the
`publication_year` column: `none` (NaN) when no non-null value exists. -/
def colMin (rows : List Row) : Option Int :=
  (yearCol rows).min?

/-- Models `Series.max()` with the default NaN-skipping on the
`publication_year` column. -/
def colMax (rows : List Row) : Option Int :=
  (yearCol rows).max?

/-- The message of the ValueError that Python `int()` raises on NaN. -/
def nanIntError : String :=
  "ValueError: cannot convert float NaN to integer"

/-- Models Python `int(x)` applied to a possibly-NaN numeric value. -/
def pyInt : Option Int → PyResult Int
  | none => PyResult.exn nanIntError
  | some v => PyResult.ok v

/-- Models the slider-bound computation of lines 42-47:
`int(df[publication_year].min())` and `int(df[publication_year].max())`;
`int` of the minimum is evaluated first. -/
def year_range_bounds (rows : List Row) : PyResult (Int × Int) :=
  match pyInt (colMin rows), pyInt (colMax rows) with
  | PyResult.ok lo, PyResult.ok hi => PyResult.ok (lo, hi)
  | PyResult.exn m, _ => PyResult.exn m
  | _, PyResult.exn m => PyResult.exn m

/-- A sample raw row used to instantiate the universally quantified
theorems on a concrete input. -/
def sampleRaw : RawRow :=
  ⟨some ("Paper on X"), some ("a b  c"), none, some ("2020-01-01")⟩

/-- The cleaned, derived form of `sampleRaw`. -/
def sampleRow : Row :=
  ⟨some ("Paper on X"), some ("a b  c"), some ("Unknown Journal"), some 2020, 3⟩

/-- A cleaned row whose `publish_time` failed to parse. -/
def nullYearRow : Row :=
  ⟨some ("T"), some ("A"), some ("J"), none, 1⟩

/-- A cleaned row published in 2020. -/
def row2020 : Row :=
  ⟨some ("T"), some ("A"), some ("J"), some 2020, 1⟩

/-- First row of the end-to-end scenario. -/
def c4Raw1 : RawRow :=
  ⟨some ("T1"), some ("A1"), some ("J1"), some ("2020-01-01")⟩

/-- Second row of the end-to-end scenario: unparseable date, null journal. -/
def c4Raw2 : RawRow :=
  ⟨some ("T2"), some ("A2"), none, some ("not-a-date")⟩

/-- Third row of the end-to-end scenario. -/
def c4Raw3 : RawRow :=
  ⟨some ("T3"), some ("A3"), some ("J1"), some ("2021-06-15")⟩

/-- The 3-row input table of the end-to-end scenario. -/
def c4Input : List RawRow :=
  [c4Raw1, c4Raw2, c4Raw3]

end Framework

namespace Framework

/-- C1: after the cleaning step, every row of the cleaned table has a
non-null title, a non-null abstract, and a non-null journal. -/
theorem clean_no_nulls (rows : List RawRow) (r : Row) (h : r ∈ load_data rows) :
    r.title.isSome = true ∧ r.abstract.isSome = true ∧ r.journal.isSome = true := by
  unfold load_data clean fillnaJournal dropnaTitleAbstract at h
  rw [List.mem_map] at h
  obtain ⟨a, ha, rfl⟩ := h
  rw [List.mem_map] at ha
  obtain ⟨b, hb, rfl⟩ := ha
  have hp : keepRow b = true := List.of_mem_filter hb
  unfold keepRow at hp
  rw [Bool.and_eq_true] at hp
  exact ⟨hp.1, hp.2, rfl⟩

/-- Witness for C1 at a concrete one-row table. -/
theorem clean_no_nulls_wit :
    sampleRow ∈ load_data [sampleRaw] ∧
      (sampleRow.title.isSome = true ∧ sampleRow.abstract.isSome = true ∧
        sampleRow.journal.isSome = true) :=
  ⟨by decide, clean_no_nulls [sampleRaw] sampleRow (by decide)⟩

/-- C2: the year filter keeps exactly the rows whose publication year is
non-null and lies in the closed interval; null-year rows are excluded. -/
theorem filtered_df_mem_iff (rows : List Row) (lo hi : Int) (r : Row) :
    r ∈ filtered_df rows lo hi ↔
      r ∈ rows ∧ ∃ y, r.publication_year = some y ∧ lo ≤ y ∧ y ≤ hi := by
  unfold filtered_df
  rw [List.mem_filter]
  refine and_congr_right fun _ => ?_
  unfold yearPred
  cases hy : r.publication_year with
  | none => simp
  | some y => simp

/-- C3: the top-journals aggregation returns at most 10 entries, its counts
are non-increasing across the returned sequence, and entries with equal
counts appear in their original grouping (first-occurrence) order: for any
count value, the result entries carrying it form a subsequence of the
grouped counts in grouping order. -/
theorem top_journals_spec (rows : List Row) :
    (top_journals rows).length ≤ 10 ∧
      (top_journals rows).Pairwise countGE ∧
      ∀ c : Nat,
        List.Sublist
          ((top_journals rows).filter (fun p => p.2 == c))
          ((groupedCounts (journalCol rows)).filter (fun p => p.2 == c)) := by
  unfold top_journals value_counts_desc
  refine ⟨List.length_take_le 10 _, ?_, ?_⟩
  · have hs : (List.insertionSort countGE (groupedCounts (journalCol rows))).Pairwise countGE :=
      List.sorted_insertionSort countGE (groupedCounts (journalCol rows))
    exact List.Pairwise.sublist (List.take_sublist 10 _) hs
  · intro c
    have hpw : ((groupedCounts (journalCol rows)).filter (fun p => p.2 == c)).Pairwise countGE := by
      apply List.pairwise_of_forall_mem_list
      intro a ha b hb
      have ha2 : a.2 = c := by
        have hx := List.of_mem_filter ha
        simpa using hx
      have hb2 : b.2 = c := by
        have hx := List.of_mem_filter hb
        simpa using hx
      unfold countGE
      rw [ha2, hb2]
    have hsub : List.Sublist
        ((groupedCounts (journalCol rows)).filter (fun p => p.2 == c))
        (groupedCounts (journalCol rows)) :=
      List.filter_sublist _
    have h1 := List.sublist_insertionSort hpw hsub
    have h2 := h1.filter (fun p => p.2 == c)
    have hidem : (((groupedCounts (journalCol rows)).filter (fun p => p.2 == c)).filter
          (fun p => p.2 == c))
        = (groupedCounts (journalCol rows)).filter (fun p => p.2 == c) := by
      apply List.filter_eq_self.mpr
      intro a ha
      rw [List.mem_filter] at ha
      exact ha.2
    rw [hidem] at h2
    have hperm :
        List.Perm
          ((List.insertionSort countGE (groupedCounts (journalCol rows))).filter
            (fun p => p.2 == c))
          ((groupedCounts (journalCol rows)).filter (fun p => p.2 == c)) :=
      (List.perm_insertionSort countGE (groupedCounts (journalCol rows))).filter _
    have hlen : ((groupedCounts (journalCol rows)).filter (fun p => p.2 == c)).length
        = ((List.insertionSort countGE (groupedCounts (journalCol rows))).filter
            (fun p => p.2 == c)).length :=
      hperm.length_eq.symm
    have heq :
        (List.insertionSort countGE (groupedCounts (journalCol rows))).filter
            (fun p => p.2 == c)
          = (groupedCounts (journalCol rows)).filter (fun p => p.2 == c) :=
      (h2.eq_of_length hlen).symm
    have htake :=
      (List.take_sublist 10
          (List.insertionSort countGE (groupedCounts (journalCol rows)))).filter
        (fun p => p.2 == c)
    rw [heq] at htake
    exact htake

/-- C4: on the 3-row scenario table, the preparation step yields
publication years [2020, null, 2021] and journals
[J1, Unknown Journal, J1]; the observed year bounds are 2020-2021; and the
time-series aggregation over that full range is exactly
[(2020, 1), (2021, 1)], the null-year row excluded. -/
theorem end_to_end_scenario :
    (load_data c4Input).map (fun r => r.publication_year)
        = [some 2020, none, some 2021] ∧
      (load_data c4Input).map (fun r => r.journal)
        = [some ("J1"), some ("Unknown Journal"), some ("J1")] ∧
      year_range_bounds (load_data c4Input) = PyResult.ok (2020, 2021) ∧
      papers_by_year (filtered_df (load_data c4Input) 2020 2021)
        = [(2020, 1), (2021, 1)] := by
  decide

/-- C5 (counterexample to the claim as stated): the console variant has no
empty-corpus check; on a table with zero titles, its word-cloud step calls
`generate` on the empty corpus, which raises a ValueError, so the empty
corpus is not an explicitly handled case in both variants. -/
theorem console_wordcloud_raises_on_empty :
    console_wordcloud [] = WCResult.raised emptyCorpusError := by
  decide

/-- C5 (amended): in the interactive variant, whenever the filtered view
contains zero titles, the word-cloud step takes the placeholder-message
path and nothing is raised. -/
theorem empty_corpus_placeholder (rows : List Row) (lo hi : Int)
    (h : titleCol (filtered_df rows lo hi) = []) :
    interactive_wordcloud (filtered_df rows lo hi) = WCResult.placeholderMessage := by
  have hnil : filtered_df rows lo hi = [] := by
    unfold titleCol at h
    exact List.map_eq_nil_iff.mp h
  rw [hnil]
  decide

/-- Witness for the amended C5: a one-row table filtered to a year range
that matches nothing. -/
theorem empty_corpus_placeholder_wit :
    titleCol (filtered_df [row2020] 1999 1999) = [] ∧
      interactive_wordcloud (filtered_df [row2020] 1999 1999)
        = WCResult.placeholderMessage :=
  ⟨by decide, empty_corpus_placeholder [row2020] 1999 1999 (by decide)⟩

/-- C6 (counterexample to the claim as stated): when the input file is
missing, the console variant terminates with exit status 0, not a non-zero
status, because `exit()` is called with no argument. -/
theorem console_missing_file_exit_status :
    exitCode (console_load false []) = some 0 := by
  decide

/-- C6 (amended): when the input file is missing, the console variant
prints an error message and terminates, with exit status 0. -/
theorem console_missing_file_prints_and_exits (contents : List RawRow) :
    console_load false contents = ConsoleLoad.exited consoleMissingFileMsg 0 := by
  rfl

/-- C7 (counterexample to the claim as stated): when the input file is
missing, the interactive script does not produce any handled outcome; the
load raises an exception that no application code catches. -/
theorem interactive_missing_file_uncaught :
    interactive_load false [] = PyResult.exn fileNotFoundMsg := by
  decide

/-- C7 (amended): when the input file is missing, the interactive variant
propagates the FileNotFoundError out of `load_data` unhandled, for any file
contents; the script itself contains no recovery or reporting path. -/
theorem interactive_missing_file_propagates (contents : List RawRow) :
    interactive_load false contents = PyResult.exn fileNotFoundMsg := by
  rfl

/-- C8: the preparation step is deterministic (two runs on the same input
agree) and the cleaning step is idempotent (cleaning a cleaned table
changes nothing), with no state outside the produced table. -/
theorem preparation_deterministic_idempotent (rows : List RawRow) :
    load_data rows = load_data rows ∧ clean (clean rows) = clean rows := by
  refine ⟨rfl, ?_⟩
  have h1 : dropnaTitleAbstract (fillnaJournal (dropnaTitleAbstract rows))
      = fillnaJournal (dropnaTitleAbstract rows) := by
    apply List.filter_eq_self.mpr
    intro a ha
    unfold fillnaJournal at ha
    rw [List.mem_map] at ha
    obtain ⟨b, hb, rfl⟩ := ha
    unfold dropnaTitleAbstract at hb
    have hk : keepRow b = true := List.of_mem_filter hb
    exact hk
  calc clean (clean rows)
      = fillnaJournal (dropnaTitleAbstract (fillnaJournal (dropnaTitleAbstract rows))) := rfl
    _ = fillnaJournal (fillnaJournal (dropnaTitleAbstract rows)) := by rw [h1]
    _ = fillnaJournal (dropnaTitleAbstract rows) := by
        unfold fillnaJournal
        rw [List.map_map]
        rfl

/-- C9: the derived word count of every cleaned row is the number of
whitespace-delimited tokens of the string-coerced abstract; repeated
separators collapse, and in particular the abstract containing the letters
a, b, c separated by one and two spaces has word count 3. -/
theorem word_count_spec (rows : List RawRow) (r : Row) (h : r ∈ load_data rows) :
    r.abstract_word_count = pyWordCount (pyStr r.abstract) ∧
      pyWordCount ("a b  c") = 3 ∧
      pyWordCount ("a b  c") = pyWordCount ("a b c") := by
  refine ⟨?_, by decide, by decide⟩
  unfold load_data at h
  rw [List.mem_map] at h
  obtain ⟨a, _, rfl⟩ := h
  rfl

/-- Witness for C9 at a concrete one-row table. -/
theorem word_count_spec_wit :
    sampleRow ∈ load_data [sampleRaw] ∧
      (sampleRow.abstract_word_count = pyWordCount (pyStr sampleRow.abstract) ∧
        pyWordCount ("a b  c") = 3 ∧
        pyWordCount ("a b  c") = pyWordCount ("a b c")) :=
  ⟨by decide, word_count_spec [sampleRaw] sampleRow (by decide)⟩

/-- C10: when no row has a parseable publish_time (every publication_year
is null, including the empty table), the slider-bound computation
`int(min)` / `int(max)` raises a ValueError, so the interactive dashboard
cannot render its year selector for such inputs. -/
theorem year_bounds_raise_on_all_null (rows : List Row)
    (h : ∀ r ∈ rows, r.publication_year = none) :
    year_range_bounds rows = PyResult.exn nanIntError := by
  have hcol : yearCol rows = [] := by
    unfold yearCol
    exact List.filterMap_eq_nil_iff.mpr h
  unfold year_range_bounds colMin colMax
  rw [hcol]
  rfl

/-- Witness for C10 at a concrete one-row table whose only row has a null
publication year. -/
theorem year_bounds_raise_on_all_null_wit :
    (∀ r ∈ [nullYearRow], r.publication_year = none) ∧
      year_range_bounds [nullYearRow] = PyResult.exn nanIntError :=
  ⟨by decide, year_bounds_raise_on_all_null [nullYearRow] (by decide)⟩

end Framework
